import Mathlib

/-!
Verification development for the fyteclub native WebRTC layer
(src/native/simple_webrtc.cpp, src/native/minimal_webrtc.cpp,
src/native/webrtc_wrapper.cpp).

Each C++ translation unit defines an `extern "C"` API over a heap-allocated
`WebRTCPeer` struct.  We embed each variant in its own namespace.  A nullable
`WebRTCPeer*` handle is modelled as `Option WebRTCPeer`; an exported function
that mutates the pointee is modelled as a pure function returning the status
code together with the possibly-updated handle.  `void*` data-channel handles
(the mock constant `0x12345678` or `nullptr`) are modelled as `Option Nat`.
`DestroyPeerConnection` returns a `Bool` recording whether `delete` actually
ran (its null guard) together with the now-invalid handle, modelled as `none`.

Only the mock (`#else`) variant of webrtc_wrapper.cpp is embedded: it is the
default build (the `USE_LIBDATACHANNEL` and `FULL_WEBRTC` variants call into
external transport libraries and are outside the pure fragment).
-/

namespace SimpleWebrtc

/-- The `WebRTCPeer` struct of simple_webrtc.cpp: two flags and the two
stored session descriptions, all default-initialized
(`initialized = false`, `connected = false`, empty strings). -/
structure WebRTCPeer where
  initialized : Bool
  connected : Bool
  local_sdp : String
  remote_sdp : String
deriving Repr, DecidableEq

/-- The fixed SDP offer blob written by `CreateOffer` (simple_webrtc.cpp,
lines 36-48; adjacent C string literals concatenate). -/
def offer_sdp : String :=
  "v=0\r\n" ++
  "o=- 123456789 2 IN IP4 127.0.0.1\r\n" ++
  "s=-\r\n" ++
  "t=0 0\r\n" ++
  "a=group:BUNDLE 0\r\n" ++
  "m=application 9 UDP/DTLS/SCTP webrtc-datachannel\r\n" ++
  "c=IN IP4 0.0.0.0\r\n" ++
  "a=ice-ufrag:test\r\n" ++
  "a=ice-pwd:testpassword\r\n" ++
  "a=fingerprint:sha-256 AA:BB:CC:DD:EE:FF:00:11:22:33:44:55:66:77:88:99:AA:BB:CC:DD:EE:FF:00:11:22:33:44:55:66:77:88:99\r\n" ++
  "a=setup:actpass\r\n" ++
  "a=mid:0\r\n" ++
  "a=sctp-port:5000\r\n"

/-- The fixed SDP answer blob written by `CreateAnswer` (simple_webrtc.cpp,
lines 58-70). -/
def answer_sdp : String :=
  "v=0\r\n" ++
  "o=- 987654321 2 IN IP4 127.0.0.1\r\n" ++
  "s=-\r\n" ++
  "t=0 0\r\n" ++
  "a=group:BUNDLE 0\r\n" ++
  "m=application 9 UDP/DTLS/SCTP webrtc-datachannel\r\n" ++
  "c=IN IP4 0.0.0.0\r\n" ++
  "a=ice-ufrag:test2\r\n" ++
  "a=ice-pwd:testpassword2\r\n" ++
  "a=fingerprint:sha-256 BB:CC:DD:EE:FF:00:11:22:33:44:55:66:77:88:99:AA:BB:CC:DD:EE:FF:00:11:22:33:44:55:66:77:88:99:AA\r\n" ++
  "a=setup:active\r\n" ++
  "a=mid:0\r\n" ++
  "a=sctp-port:5000\r\n"

/-- `CreatePeerConnection` (simple_webrtc.cpp line 17): `new WebRTCPeer()`
with all fields at their in-class defaults. -/
def CreatePeerConnection : WebRTCPeer :=
  { initialized := false, connected := false, local_sdp := "", remote_sdp := "" }

/-- `InitializePeerConnection` (simple_webrtc.cpp lines 21-25):
`if (!peer) return -1; peer->initialized = true; return 0;`.
The `stun_server` argument is ignored by the body. -/
def InitializePeerConnection : Option WebRTCPeer → String → Int × Option WebRTCPeer
  | none, _ => (-1, none)
  | some p, _ => (0, some { p with initialized := true })

/-- `CreateDataChannel` (simple_webrtc.cpp lines 27-30): returns `nullptr`
when the peer is null or not initialized, otherwise the mock handle
`0x12345678`; the peer is not modified. -/
def CreateDataChannel : Option WebRTCPeer → String → Option Nat
  | none, _ => none
  | some p, _ => if p.initialized then some 0x12345678 else none

/-- `CreateOffer` (simple_webrtc.cpp lines 32-50): fails with `-1` on a null
or uninitialized peer, otherwise overwrites `local_sdp` with the fixed offer
blob and returns `0`. -/
def CreateOffer : Option WebRTCPeer → Int × Option WebRTCPeer
  | none => (-1, none)
  | some p =>
    if p.initialized then (0, some { p with local_sdp := offer_sdp })
    else (-1, some p)

/-- `CreateAnswer` (simple_webrtc.cpp lines 52-72): fails with `-1` on a null
or uninitialized peer, otherwise records the argument as `remote_sdp`,
overwrites `local_sdp` with the fixed answer blob, and returns `0`. -/
def CreateAnswer : Option WebRTCPeer → String → Int × Option WebRTCPeer
  | none, _ => (-1, none)
  | some p, offer =>
    if p.initialized then
      (0, some { p with remote_sdp := offer, local_sdp := answer_sdp })
    else (-1, some p)

/-- `SetRemoteDescription` (simple_webrtc.cpp lines 74-80): fails with `-1`
on a null or uninitialized peer, otherwise records the argument as
`remote_sdp`, sets `connected = true`, and returns `0`.  The body performs no
check on the content of `sdp`. -/
def SetRemoteDescription : Option WebRTCPeer → String → Int × Option WebRTCPeer
  | none, _ => (-1, none)
  | some p, sdp =>
    if p.initialized then
      (0, some { p with remote_sdp := sdp, connected := true })
    else (-1, some p)

/-- `SendData` (simple_webrtc.cpp lines 82-87): `-1` iff the data-channel
handle is null; the `data` pointer and `length` are never inspected. -/
def SendData : Option Nat → Option (List Nat) → Int → Int
  | none, _, _ => -1
  | some _, _, _ => 0

/-- `DestroyPeerConnection` (simple_webrtc.cpp lines 89-93):
`if (peer) { delete peer; }`.  The `Bool` records whether `delete` ran;
afterwards the handle no longer refers to a live object (`none`). -/
def DestroyPeerConnection : Option WebRTCPeer → Bool × Option WebRTCPeer
  | none => (false, none)
  | some _ => (true, none)

end SimpleWebrtc

namespace MinimalWebrtc

/-- The `WebRTCPeer` struct of minimal_webrtc.cpp: two flags plus two raw
pointers (`peer_connection`, `data_channel`), default `nullptr`. -/
structure WebRTCPeer where
  initialized : Bool
  connected : Bool
  peer_connection : Option Nat
  data_channel : Option Nat
deriving Repr, DecidableEq

/-- `CreatePeerConnection` (minimal_webrtc.cpp lines 16-20): allocates a
default peer and then sets `peer->initialized = true` before returning it. -/
def CreatePeerConnection : WebRTCPeer :=
  { initialized := true, connected := false, peer_connection := none, data_channel := none }

/-- `InitializePeerConnection` (minimal_webrtc.cpp lines 22-26):
`if (!peer) return -1; peer->initialized = true; return 0;`. -/
def InitializePeerConnection : Option WebRTCPeer → String → Int × Option WebRTCPeer
  | none, _ => (-1, none)
  | some p, _ => (0, some { p with initialized := true })

/-- `CreateDataChannel` (minimal_webrtc.cpp lines 28-32): on a null or
uninitialized peer returns `nullptr`; otherwise stores the mock handle
`0x12345678` in `peer->data_channel` and returns it. -/
def CreateDataChannel : Option WebRTCPeer → String → Option Nat × Option WebRTCPeer
  | none, _ => (none, none)
  | some p, _ =>
    if p.initialized then
      (some 0x12345678, some { p with data_channel := some 0x12345678 })
    else (none, some p)

/-- `CreateOffer` (minimal_webrtc.cpp lines 34-37): a pure status check, no
mutation: `-1` on null/uninitialized, else `0`. -/
def CreateOffer : Option WebRTCPeer → Int
  | none => -1
  | some p => if p.initialized then 0 else -1

/-- `CreateAnswer` (minimal_webrtc.cpp lines 39-42): a pure status check, no
mutation: `-1` on null/uninitialized, else `0`. -/
def CreateAnswer : Option WebRTCPeer → String → Int
  | none, _ => -1
  | some p, _ => if p.initialized then 0 else -1

/-- `SetRemoteDescription` (minimal_webrtc.cpp lines 44-48): `-1` on
null/uninitialized; otherwise sets `connected = true` and returns `0`.  The
`sdp` argument is never inspected. -/
def SetRemoteDescription : Option WebRTCPeer → String → Int × Option WebRTCPeer
  | none, _ => (-1, none)
  | some p, _ =>
    if p.initialized then (0, some { p with connected := true })
    else (-1, some p)

/-- `SendData` (minimal_webrtc.cpp lines 50-54): `-1` iff the data-channel
handle is null, otherwise always `0`. -/
def SendData : Option Nat → Option (List Nat) → Int → Int
  | none, _, _ => -1
  | some _, _, _ => 0

/-- `DestroyPeerConnection` (minimal_webrtc.cpp lines 56-60):
`if (peer) { delete peer; }`. -/
def DestroyPeerConnection : Option WebRTCPeer → Bool × Option WebRTCPeer
  | none => (false, none)
  | some _ => (true, none)

end MinimalWebrtc

namespace WebrtcWrapperMock

/-- The `WebRTCPeer` struct of the default (mock, `#else`) variant of
webrtc_wrapper.cpp: just the two flags, both default `false`. -/
structure WebRTCPeer where
  initialized : Bool
  connected : Bool
deriving Repr, DecidableEq

/-- `CreatePeerConnection` (webrtc_wrapper.cpp lines 78-80, mock variant):
`new WebRTCPeer()` with the in-class defaults. -/
def CreatePeerConnection : WebRTCPeer :=
  { initialized := false, connected := false }

/-- `InitializePeerConnection` (webrtc_wrapper.cpp lines 82-86, mock
variant): `if (!peer) return -1; peer->initialized = true; return 0;`. -/
def InitializePeerConnection : Option WebRTCPeer → String → Int × Option WebRTCPeer
  | none, _ => (-1, none)
  | some p, _ => (0, some { p with initialized := true })

/-- `CreateDataChannel` (webrtc_wrapper.cpp lines 88-92, mock variant): on a
null or uninitialized peer returns `nullptr`; otherwise sets
`peer->connected = true` and returns the mock handle `0x12345678`. -/
def CreateDataChannel : Option WebRTCPeer → String → Option Nat × Option WebRTCPeer
  | none, _ => (none, none)
  | some p, _ =>
    if p.initialized then
      (some 0x12345678, some { p with connected := true })
    else (none, some p)

/-- `CreateOffer` (webrtc_wrapper.cpp lines 94-96, mock variant):
`return peer && peer->initialized ? 0 : -1;`, no mutation. -/
def CreateOffer : Option WebRTCPeer → Int
  | none => -1
  | some p => if p.initialized then 0 else -1

/-- `SendData` (webrtc_wrapper.cpp lines 98-100, mock variant):
`return data_channel && data && length > 0 ? 0 : -1;` — a zero-length (or
null-data) payload is rejected. -/
def SendData : Option Nat → Option (List Nat) → Int → Int
  | some _, some _, len => if 0 < len then 0 else -1
  | _, _, _ => -1

/-- `DestroyPeerConnection` (webrtc_wrapper.cpp lines 102-104, mock
variant): unconditional `delete peer;` — `delete` on a null pointer is a
no-op, so no deallocation happens for a null handle. -/
def DestroyPeerConnection : Option WebRTCPeer → Bool × Option WebRTCPeer
  | none => (false, none)
  | some _ => (true, none)

end WebrtcWrapperMock

/-- An initialized, not-yet-connected simple_webrtc.cpp peer: the state after
`CreatePeerConnection` followed by a successful `InitializePeerConnection`. -/
def SimpleWebrtc.initPeer : SimpleWebrtc.WebRTCPeer :=
  { initialized := true, connected := false, local_sdp := "", remote_sdp := "" }

/-- The state of `SimpleWebrtc.initPeer` after a successful `CreateOffer`. -/
def SimpleWebrtc.offerPeer : SimpleWebrtc.WebRTCPeer :=
  { initialized := true, connected := false, local_sdp := SimpleWebrtc.offer_sdp,
    remote_sdp := "" }

/-- The state of `SimpleWebrtc.initPeer` after a successful
`CreateAnswer` applied to the fixed offer blob. -/
def SimpleWebrtc.answerPeer : SimpleWebrtc.WebRTCPeer :=
  { initialized := true, connected := false, local_sdp := SimpleWebrtc.answer_sdp,
    remote_sdp := SimpleWebrtc.offer_sdp }

/-- The state of `SimpleWebrtc.offerPeer` after a successful
`SetRemoteDescription` with the fixed answer blob. -/
def SimpleWebrtc.connectedPeer : SimpleWebrtc.WebRTCPeer :=
  { initialized := true, connected := true, local_sdp := SimpleWebrtc.offer_sdp,
    remote_sdp := SimpleWebrtc.answer_sdp }

/-- C1 counterexample: in simple_webrtc.cpp, after `CreatePeerConnection`,
`InitializePeerConnection`, and a successful `CreateOffer`, a second
`CreateOffer` on the same peer again returns `0` (success), not an
`InvalidState` error as the claim requires. -/
theorem c1_counterexample :
    (SimpleWebrtc.CreateOffer
      (SimpleWebrtc.InitializePeerConnection
        (some SimpleWebrtc.CreatePeerConnection) ("stun:example.org:3478")).2).1 = 0 ∧
    (SimpleWebrtc.CreateOffer
      (SimpleWebrtc.CreateOffer
        (SimpleWebrtc.InitializePeerConnection
          (some SimpleWebrtc.CreatePeerConnection) ("stun:example.org:3478")).2).2).1 = 0 :=
  ⟨rfl, rfl⟩

/-- C1 amended: in simple_webrtc.cpp there is no offer/answer exclusivity:
on an initialized peer every call of `CreateOffer` or `CreateAnswer`
succeeds (returns `0`), in any order and any number of times, overwriting
the stored local description (and, for `CreateAnswer`, the remote one). -/
theorem c1_amended_repeat_succeeds (p : SimpleWebrtc.WebRTCPeer)
    (h : p.initialized = true) (o o2 : String) :
    (SimpleWebrtc.CreateOffer (some p)).1 = 0 ∧
    (SimpleWebrtc.CreateOffer (SimpleWebrtc.CreateOffer (some p)).2).1 = 0 ∧
    (SimpleWebrtc.CreateAnswer (SimpleWebrtc.CreateOffer (some p)).2 o).1 = 0 ∧
    (SimpleWebrtc.CreateOffer (SimpleWebrtc.CreateAnswer (some p) o).2).1 = 0 ∧
    (SimpleWebrtc.CreateAnswer (SimpleWebrtc.CreateAnswer (some p) o).2 o2).1 = 0 ∧
    (SimpleWebrtc.CreateAnswer (SimpleWebrtc.CreateOffer (some p)).2 o).2 =
      some { p with local_sdp := SimpleWebrtc.answer_sdp, remote_sdp := o } := by
  simp [SimpleWebrtc.CreateOffer, SimpleWebrtc.CreateAnswer, h]

/-- C1 amended, witness at the initialized sample peer. -/
theorem c1_amended_repeat_succeeds_witness :
    SimpleWebrtc.initPeer.initialized = true ∧
    ((SimpleWebrtc.CreateOffer (some SimpleWebrtc.initPeer)).1 = 0 ∧
     (SimpleWebrtc.CreateOffer
        (SimpleWebrtc.CreateOffer (some SimpleWebrtc.initPeer)).2).1 = 0 ∧
     (SimpleWebrtc.CreateAnswer
        (SimpleWebrtc.CreateOffer (some SimpleWebrtc.initPeer)).2 ("sdp-x")).1 = 0 ∧
     (SimpleWebrtc.CreateOffer
        (SimpleWebrtc.CreateAnswer (some SimpleWebrtc.initPeer) ("sdp-x")).2).1 = 0 ∧
     (SimpleWebrtc.CreateAnswer
        (SimpleWebrtc.CreateAnswer (some SimpleWebrtc.initPeer) ("sdp-x")).2 ("sdp-y")).1 = 0 ∧
     (SimpleWebrtc.CreateAnswer
        (SimpleWebrtc.CreateOffer (some SimpleWebrtc.initPeer)).2 ("sdp-x")).2 =
       some { SimpleWebrtc.initPeer with
                local_sdp := SimpleWebrtc.answer_sdp
                remote_sdp := "sdp-x" }) :=
  ⟨rfl, c1_amended_repeat_succeeds SimpleWebrtc.initPeer rfl ("sdp-x") ("sdp-y")⟩

/-- C2 counterexample: `InitializePeerConnection` on an already-initialized
peer returns `0` (success), not an `InvalidState` error: both in
simple_webrtc.cpp (after a first successful initialize) and in
minimal_webrtc.cpp (whose `CreatePeerConnection` already returns an
initialized peer). -/
theorem c2_counterexample :
    (SimpleWebrtc.InitializePeerConnection
      (SimpleWebrtc.InitializePeerConnection
        (some SimpleWebrtc.CreatePeerConnection) ("stun:a")).2 ("stun:a")).1 = 0 ∧
    MinimalWebrtc.CreatePeerConnection.initialized = true ∧
    (MinimalWebrtc.InitializePeerConnection
      (some MinimalWebrtc.CreatePeerConnection) ("stun:a")).1 = 0 :=
  ⟨rfl, rfl, rfl⟩

/-- C2 amended: `InitializePeerConnection` performs no state check at all:
on every non-null peer, in any state, it succeeds (returns `0`) and sets the
`initialized` flag; it fails with `-1` only on a null handle. -/
theorem c2_amended_always_succeeds (s : String) (p : SimpleWebrtc.WebRTCPeer)
    (q : MinimalWebrtc.WebRTCPeer) (r : WebrtcWrapperMock.WebRTCPeer) :
    SimpleWebrtc.InitializePeerConnection (some p) s =
      (0, some { p with initialized := true }) ∧
    MinimalWebrtc.InitializePeerConnection (some q) s =
      (0, some { q with initialized := true }) ∧
    WebrtcWrapperMock.InitializePeerConnection (some r) s =
      (0, some { r with initialized := true }) ∧
    SimpleWebrtc.InitializePeerConnection none s = (-1, none) :=
  ⟨rfl, rfl, rfl, rfl⟩

/-- C3: offer/answer round-trip in simple_webrtc.cpp.  If `CreateOffer` on
peer `a` succeeds yielding state `a1` (whose `local_sdp` is the produced
offer), `CreateAnswer` on peer `b` with that offer succeeds yielding state
`b1` (whose `local_sdp` is the produced answer), and `SetRemoteDescription`
on `a1` with that answer succeeds yielding `a2`, then `a2` is connected and
its recorded remote description is exactly the answer. -/
theorem c3_offer_answer_roundtrip (a b a1 b1 a2 : SimpleWebrtc.WebRTCPeer)
    (_h1 : SimpleWebrtc.CreateOffer (some a) = (0, some a1))
    (_h2 : SimpleWebrtc.CreateAnswer (some b) a1.local_sdp = (0, some b1))
    (h3 : SimpleWebrtc.SetRemoteDescription (some a1) b1.local_sdp = (0, some a2)) :
    a2.connected = true ∧ a2.remote_sdp = b1.local_sdp := by
  simp only [SimpleWebrtc.SetRemoteDescription] at h3
  split at h3
  · simp only [Prod.mk.injEq, Option.some.injEq] at h3
    rw [← h3.2]
    exact ⟨rfl, rfl⟩
  · have hc : (-1 : Int) = 0 := congrArg Prod.fst h3
    omega

/-- C3, witness: the concrete two-peer trace of simple_webrtc.cpp, both
peers freshly initialized. -/
theorem c3_offer_answer_roundtrip_witness :
    SimpleWebrtc.CreateOffer (some SimpleWebrtc.initPeer) =
      (0, some SimpleWebrtc.offerPeer) ∧
    SimpleWebrtc.CreateAnswer (some SimpleWebrtc.initPeer)
      SimpleWebrtc.offerPeer.local_sdp = (0, some SimpleWebrtc.answerPeer) ∧
    SimpleWebrtc.SetRemoteDescription (some SimpleWebrtc.offerPeer)
      SimpleWebrtc.answerPeer.local_sdp = (0, some SimpleWebrtc.connectedPeer) ∧
    (SimpleWebrtc.connectedPeer.connected = true ∧
      SimpleWebrtc.connectedPeer.remote_sdp = SimpleWebrtc.answerPeer.local_sdp) :=
  ⟨rfl, rfl, rfl,
    c3_offer_answer_roundtrip SimpleWebrtc.initPeer SimpleWebrtc.initPeer
      SimpleWebrtc.offerPeer SimpleWebrtc.answerPeer SimpleWebrtc.connectedPeer
      rfl rfl rfl⟩

/-- C4 counterexample: `SetRemoteDescription` with the empty description on
an initialized simple_webrtc.cpp peer does not fail with `InvalidArgument`:
it returns `0` and mutates the peer (records the empty string as
`remote_sdp` and flips `connected` to `true`). -/
theorem c4_counterexample :
    SimpleWebrtc.SetRemoteDescription (some SimpleWebrtc.initPeer) ("") =
      (0, some { SimpleWebrtc.initPeer with remote_sdp := "", connected := true }) :=
  rfl

/-- C4 amended: neither simple_webrtc.cpp nor minimal_webrtc.cpp validates
the description: on an initialized peer `SetRemoteDescription` succeeds for
every string, the empty string included, recording it (in simple_webrtc)
and setting `connected`; it fails with `-1` exactly when the peer is null
or uninitialized, leaving the peer unchanged. -/
theorem c4_amended_no_validation (p : SimpleWebrtc.WebRTCPeer)
    (q : MinimalWebrtc.WebRTCPeer) (sdp : String) :
    SimpleWebrtc.SetRemoteDescription (some p) sdp =
      (if p.initialized then
        (0, some { p with remote_sdp := sdp, connected := true })
       else (-1, some p)) ∧
    MinimalWebrtc.SetRemoteDescription (some q) sdp =
      (if q.initialized then (0, some { q with connected := true })
       else (-1, some q)) ∧
    SimpleWebrtc.SetRemoteDescription none sdp = (-1, none) :=
  ⟨rfl, rfl, rfl⟩

/-- C5 counterexample: `CreatePeerConnection` of minimal_webrtc.cpp does not
return an uninitialized Connection: it sets `initialized = true` before
returning, so the freshly created peer is already past `Uninitialized`. -/
theorem c5_counterexample :
    MinimalWebrtc.CreatePeerConnection.initialized = true :=
  rfl

/-- C5 amended: the peers returned by `CreatePeerConnection` in
simple_webrtc.cpp and in the mock variant of webrtc_wrapper.cpp are
uninitialized, not connected, and carry no descriptions; but in
minimal_webrtc.cpp the freshly created peer already has
`initialized = true` (still not connected, with no data channel). -/
theorem c5_amended_create_states :
    SimpleWebrtc.CreatePeerConnection.initialized = false ∧
    SimpleWebrtc.CreatePeerConnection.connected = false ∧
    SimpleWebrtc.CreatePeerConnection.local_sdp = "" ∧
    SimpleWebrtc.CreatePeerConnection.remote_sdp = "" ∧
    WebrtcWrapperMock.CreatePeerConnection.initialized = false ∧
    WebrtcWrapperMock.CreatePeerConnection.connected = false ∧
    MinimalWebrtc.CreatePeerConnection.initialized = true ∧
    MinimalWebrtc.CreatePeerConnection.connected = false ∧
    MinimalWebrtc.CreatePeerConnection.peer_connection = none ∧
    MinimalWebrtc.CreatePeerConnection.data_channel = none :=
  ⟨rfl, rfl, rfl, rfl, rfl, rfl, rfl, rfl, rfl, rfl⟩

/-- C6 counterexample: in minimal_webrtc.cpp the sequence
`CreatePeerConnection` then `CreateDataChannel("chat")` does not fail:
because the freshly created peer is already marked initialized, the call
returns the mock handle `0x12345678` instead of `nullptr`. -/
theorem c6_counterexample :
    (MinimalWebrtc.CreateDataChannel
      (some MinimalWebrtc.CreatePeerConnection) ("chat")).1 = some 0x12345678 :=
  rfl

/-- C6 amended: `CreateDataChannel` fails (returns null) exactly when the
peer handle is null or the peer's `initialized` flag is false.  In
simple_webrtc.cpp and in the mock webrtc_wrapper.cpp variant a freshly
created peer has that flag false, so create-then-createDataChannel fails;
in minimal_webrtc.cpp the flag is already true at creation, so the same
sequence succeeds. -/
theorem c6_amended_datachannel_guard (l : String) (p : SimpleWebrtc.WebRTCPeer) :
    SimpleWebrtc.CreateDataChannel (some p) l =
      (if p.initialized then some 0x12345678 else none) ∧
    SimpleWebrtc.CreateDataChannel none l = none ∧
    SimpleWebrtc.CreateDataChannel (some SimpleWebrtc.CreatePeerConnection) l = none ∧
    (WebrtcWrapperMock.CreateDataChannel
      (some WebrtcWrapperMock.CreatePeerConnection) l).1 = none ∧
    (MinimalWebrtc.CreateDataChannel
      (some MinimalWebrtc.CreatePeerConnection) l).1 = some 0x12345678 :=
  ⟨rfl, rfl, rfl, rfl, rfl⟩

/-- C7 counterexample: in the mock variant of webrtc_wrapper.cpp, `SendData`
on a non-null channel with a non-null zero-length payload returns `-1`
(failure), because the body requires `length > 0`. -/
theorem c7_counterexample :
    WebrtcWrapperMock.SendData (some 0x12345678) (some []) 0 = -1 :=
  rfl

/-- C7 amended: a zero-length send on a non-null channel succeeds in
simple_webrtc.cpp and minimal_webrtc.cpp (whose `SendData` checks only the
channel handle), but in the mock variant of webrtc_wrapper.cpp `SendData`
demands a non-null data pointer and a strictly positive length, so a
zero-length payload fails with `-1`. -/
theorem c7_amended_zero_length (d : Option (List Nat)) (len : Int)
    (payload : List Nat) :
    SimpleWebrtc.SendData (some 0x12345678) d len = 0 ∧
    MinimalWebrtc.SendData (some 0x12345678) d len = 0 ∧
    WebrtcWrapperMock.SendData (some 0x12345678) (some payload) 0 = -1 ∧
    WebrtcWrapperMock.SendData (some 0x12345678) none len = -1 ∧
    WebrtcWrapperMock.SendData (some 0x12345678) (some payload) len =
      (if 0 < len then 0 else -1) :=
  ⟨rfl, rfl, rfl, rfl, rfl⟩

/-- C8: `DestroyPeerConnection` is total and idempotent in all three
variants: on any handle it returns normally (there is no error result),
leaves the handle dead (`none`), and a second destroy on the resulting
handle performs no deallocation (the `Bool` effect flag is `false`) — the
null guard (`if (peer)` / C++ `delete` on null being a no-op) makes the
repeated call a no-op. -/
theorem c8_destroy_idempotent (p : Option SimpleWebrtc.WebRTCPeer)
    (q : Option MinimalWebrtc.WebRTCPeer)
    (r : Option WebrtcWrapperMock.WebRTCPeer) :
    (SimpleWebrtc.DestroyPeerConnection p).2 = none ∧
    SimpleWebrtc.DestroyPeerConnection
      (SimpleWebrtc.DestroyPeerConnection p).2 = (false, none) ∧
    (MinimalWebrtc.DestroyPeerConnection q).2 = none ∧
    MinimalWebrtc.DestroyPeerConnection
      (MinimalWebrtc.DestroyPeerConnection q).2 = (false, none) ∧
    (WebrtcWrapperMock.DestroyPeerConnection r).2 = none ∧
    WebrtcWrapperMock.DestroyPeerConnection
      (WebrtcWrapperMock.DestroyPeerConnection r).2 = (false, none) := by
  cases p <;> cases q <;> cases r <;> exact ⟨rfl, rfl, rfl, rfl, rfl, rfl⟩

/-- C9: every exported operation, given a null handle, returns its error
value (`-1` for int-returning calls, null for handle-returning calls) or,
for `DestroyPeerConnection`, deallocates nothing — across all three
variants, no operation ever inspects a null handle. -/
theorem c9_null_handle_safe (s l : String) (d : Option (List Nat)) (len : Int) :
    SimpleWebrtc.InitializePeerConnection none s = (-1, none) ∧
    SimpleWebrtc.CreateDataChannel none l = none ∧
    SimpleWebrtc.CreateOffer none = (-1, none) ∧
    SimpleWebrtc.CreateAnswer none s = (-1, none) ∧
    SimpleWebrtc.SetRemoteDescription none s = (-1, none) ∧
    SimpleWebrtc.SendData none d len = -1 ∧
    SimpleWebrtc.DestroyPeerConnection none = (false, none) ∧
    MinimalWebrtc.InitializePeerConnection none s = (-1, none) ∧
    MinimalWebrtc.CreateDataChannel none l = (none, none) ∧
    MinimalWebrtc.CreateOffer none = -1 ∧
    MinimalWebrtc.CreateAnswer none s = -1 ∧
    MinimalWebrtc.SetRemoteDescription none s = (-1, none) ∧
    MinimalWebrtc.SendData none d len = -1 ∧
    MinimalWebrtc.DestroyPeerConnection none = (false, none) ∧
    WebrtcWrapperMock.InitializePeerConnection none s = (-1, none) ∧
    WebrtcWrapperMock.CreateDataChannel none l = (none, none) ∧
    WebrtcWrapperMock.CreateOffer none = -1 ∧
    WebrtcWrapperMock.SendData none d len = -1 ∧
    WebrtcWrapperMock.DestroyPeerConnection none = (false, none) :=
  ⟨rfl, rfl, rfl, rfl, rfl, rfl, rfl, rfl, rfl, rfl,
   rfl, rfl, rfl, rfl, rfl, rfl, rfl, rfl, rfl⟩

/-- C10: in the default (mock) variant of webrtc_wrapper.cpp, a successful
`CreateDataChannel` on an initialized peer sets the peer's `connected` flag
to `true` — so the connected state is reached without any `CreateOffer`
call (and this variant exports no `CreateAnswer` or `SetRemoteDescription`
at all). -/
theorem c10_datachannel_connects (p : WebrtcWrapperMock.WebRTCPeer)
    (h : p.initialized = true) (l : String) :
    WebrtcWrapperMock.CreateDataChannel (some p) l =
      (some 0x12345678, some { p with connected := true }) := by
  simp [WebrtcWrapperMock.CreateDataChannel, h]

/-- C10, witness: the trace create → initialize → createDataChannel in the
mock webrtc_wrapper.cpp variant reaches `connected = true` with no
offer/answer/remote-description call in it. -/
theorem c10_datachannel_connects_witness :
    (WebrtcWrapperMock.InitializePeerConnection
        (some WebrtcWrapperMock.CreatePeerConnection) ("stun:example.org:3478")).2 =
      some { initialized := true, connected := false } ∧
    ({ initialized := true, connected := false } : WebrtcWrapperMock.WebRTCPeer).initialized
      = true ∧
    WebrtcWrapperMock.CreateDataChannel
        (some { initialized := true, connected := false }) ("chat") =
      (some 0x12345678, some { initialized := true, connected := true }) :=
  ⟨rfl, rfl,
    c10_datachannel_connects { initialized := true, connected := false } rfl ("chat")⟩
